import Mathlib

set_option maxHeartbeats 1000000

/-!
Verification development for the slide-deck rendering and data-mapping engine
(`src/ppt_builder.py`, `src/ppt_generator.py`).  Python strings are modelled as
Lean `String` (ASCII-level semantics for strip/lower/upper), Python floats as
`ℚ` (exact field arithmetic), pandas DataFrames as a column-name list plus a
row-major list of cells, and the nested data store as an insertion-ordered
association list (Python dicts preserve insertion order).
-/

/-! ## Python string primitives (implemented on char lists so that every
definition evaluates by kernel reduction) -/

/-- ASCII whitespace (the characters Python `str.strip` and `str.split`
treat as separators in this codebase). -/
def chIsWs (c : Char) : Bool := c == ' ' || c == '\t' || c == '\n' || c == '\r'

/-- ASCII lower-casing of one character. -/
def chLower (c : Char) : Char :=
  if 65 ≤ c.toNat && c.toNat ≤ 90 then Char.ofNat (c.toNat + 32) else c

/-- ASCII upper-casing of one character. -/
def chUpper (c : Char) : Char :=
  if 97 ≤ c.toNat && c.toNat ≤ 122 then Char.ofNat (c.toNat - 32) else c

/-- Drop leading whitespace. -/
def dropWsLeft : List Char → List Char
  | [] => []
  | c :: rest => if chIsWs c then dropWsLeft rest else c :: rest

/-- Strip whitespace from both ends. -/
def trimChars (l : List Char) : List Char :=
  (dropWsLeft ((dropWsLeft l).reverse)).reverse

/-- Python `str.strip()` (ASCII whitespace). -/
def pyStrip (s : String) : String := ⟨trimChars s.data⟩

/-- Python `str.lower()` (ASCII). -/
def pyLower (s : String) : String := ⟨s.data.map chLower⟩

/-- Python `str.upper()` (ASCII). -/
def pyUpper (s : String) : String := ⟨s.data.map chUpper⟩

/-- List-of-chars prefix test. -/
def chPfx : List Char → List Char → Bool
  | [], _ => true
  | _ :: _, [] => false
  | a :: as, b :: bs => a == b && chPfx as bs

/-- List-of-chars substring test (`pat` occurs somewhere in the second list). -/
def chSub (pat : List Char) : List Char → Bool
  | [] => pat.isEmpty
  | b :: bs => chPfx pat (b :: bs) || chSub pat bs

/-- Python `pat in s` on strings. -/
def pyIn (pat s : String) : Bool := chSub pat.data s.data

/-- Python `s.startswith(p)`. -/
def pyStartsWith (s p : String) : Bool := chPfx p.data s.data

/-- Python `str.split()`: split on runs of whitespace, dropping empty pieces.
The first argument is the (reversed) current word accumulator. -/
def wordsAux : List Char → List Char → List (List Char)
  | cur, [] => if cur.isEmpty then [] else [cur.reverse]
  | cur, c :: rest =>
    if chIsWs c then
      if cur.isEmpty then wordsAux [] rest else cur.reverse :: wordsAux [] rest
    else wordsAux (c :: cur) rest

/-- Python single-space join of word lists. -/
def joinWords : List (List Char) → List Char
  | [] => []
  | [w] => w
  | w :: ws => w ++ ' ' :: joinWords ws

/-- ppt_builder.py line 945/950: `_`, `-`, `.` become spaces for the fuzzy column match. -/
def sepToSpace (c : Char) : Char := if c == '_' || c == '-' || c == '.' then ' ' else c

/-- Normalized name used by match strategies 2 and 3
(ppt_builder.py lines 921, 923): strip then lower (these commute on ASCII). -/
def normName (s : String) : String := pyLower (pyStrip s)

/-- Fuzzy cleaning of a column name (ppt_builder.py lines 943-951):
lower, strip, turn separators into spaces, collapse whitespace. -/
def fuzzyClean (s : String) : String :=
  ⟨joinWords (wordsAux [] ((normName s).data.map sepToSpace))⟩

/-! ## Data model: cells, DataFrames, the nested data store -/

/-- A scalar cell of a table: number, string, or missing (NaN/None). -/
inductive Cell where
  | num (q : ℚ)
  | str (s : String)
  | null
deriving DecidableEq, Repr

/-- pandas `pd.isna`. -/
def Cell.isna : Cell → Bool
  | .null => true
  | _ => false

/-- Python `str()` of a cell as consumed by the row classifier.  The numeric
representation is abstracted to the `ℚ` printer; the classifier only inspects
emptiness, the substring TOTAL and the literal NAN, none of which a numeric
repr can produce. -/
def Cell.pyStr : Cell → String
  | .num q => toString q
  | .str s => s
  | .null => "nan"

/-- A pandas DataFrame: ordered column names plus row-major cell lists. -/
structure DF where
  cols : List String
  rows : List (List Cell)
deriving DecidableEq, Repr

/-- Cell of a row at a positional index (missing positions read as NaN). -/
def rowGet (r : List Cell) (i : Nat) : Cell := r.getD i Cell.null

/-- One entry of the data store: a flat table or a sheet-name → table map. -/
inductive SourceEntry where
  | table (d : DF)
  | sheets (m : List (String × DF))
deriving DecidableEq, Repr

/-- The nested data store (`data` argument of `_get_table_data`). -/
abbrev Store := List (String × SourceEntry)

/-- Insertion-ordered association-list lookup (Python `dict` access). -/
def alookup {α : Type} (k : String) : List (String × α) → Option α
  | [] => none
  | (k2, v) :: rest => if k2 == k then some v else alookup k rest

/-! ## Filters (ppt_builder.py lines 870-892) -/

inductive FOp where
  | ne | ge | le | eq | notna
deriving DecidableEq, Repr

structure RowFilter where
  column : String
  op : FOp
  value : Option Cell
deriving DecidableEq, Repr

/-- pandas scalar equality (NaN is never equal to anything). -/
def cellEqB : Cell → Cell → Bool
  | .num a, .num b => a == b
  | .str a, .str b => a == b
  | _, _ => false

/-- pandas `>=` on scalars (only meaningful between numbers). -/
def cellGeB : Cell → Cell → Bool
  | .num a, .num b => decide (b ≤ a)
  | _, _ => false

/-- pandas `<=` on scalars. -/
def cellLeB : Cell → Cell → Bool
  | .num a, .num b => decide (a ≤ b)
  | _, _ => false

/-- Row predicate of one filter (ppt_builder.py lines 874-892). -/
def filterPred (f : RowFilter) (c : Cell) : Bool :=
  match f.op with
  | .ne =>
    match f.value with
    | none => !c.isna
    | some v => !(cellEqB c v)
  | .ge => match f.value with | some v => cellGeB c v | none => false
  | .le => match f.value with | some v => cellLeB c v | none => false
  | .eq => match f.value with | some v => cellEqB c v | none => false
  | .notna => !c.isna

/-- Apply one filter; unknown filter columns are a no-op (line 879). -/
def applyFilter (d : DF) (f : RowFilter) : DF :=
  if f.column ∈ d.cols then
    { cols := d.cols
      rows := d.rows.filter (fun r => filterPred f (rowGet r (d.cols.indexOf f.column))) }
  else d

/-- Apply the mapping filters in order (lines 874-892). -/
def applyFilters (d : DF) (fs : List RowFilter) : DF := fs.foldl applyFilter d

/-! ## The mapping spec (`mapping` dict of `_get_table_data`) -/

structure MappingSpec where
  data_source : Option String
  sheet : Option String
  columns : Option (List String)
  filters : List RowFilter
  max_rows : Option Nat
deriving Repr

/-! ## Source and sheet resolution (ppt_builder.py lines 754-859) -/

/-- Placeholder single-column table carrying a diagnostic string. -/
def msgDF (s : String) : DF := { cols := ["Message"], rows := [[Cell.str s]] }

/-- Case-insensitive source lookup (lines 774-781): first key whose
stripped-lowered form equals the lowered requested name. -/
def findCI {α : Type} (dsLower : String) : List (String × α) → Option α
  | [] => none
  | (k, v) :: rest => if normName k == dsLower then some v else findCI dsLower rest

/-- Substring source lookup (lines 784-790): first key where either normalized
name contains the other. -/
def findSubstrMatch {α : Type} (dsLower : String) : List (String × α) → Option α
  | [] => none
  | (k, v) :: rest =>
    let kStr := normName k
    if pyIn dsLower kStr || pyIn kStr dsLower then some v else findSubstrMatch dsLower rest

/-- Outcome of resolving the `data_source` key against the store. -/
inductive SourceRes where
  | found (e : SourceEntry)
  | fallback (e : SourceEntry)
  | empty
deriving DecidableEq, Repr

/-- Source resolution (lines 769-801): exact, then case-insensitive, then
substring; otherwise fall back to the first entry, or report an empty store. -/
def resolveSource (store : Store) (dsNorm : String) : SourceRes :=
  match alookup dsNorm store with
  | some e => .found e
  | none =>
    let dsLower := pyLower dsNorm
    match findCI dsLower store with
    | some e => .found e
    | none =>
      match findSubstrMatch dsLower store with
      | some e => .found e
      | none =>
        match store with
        | [] => .empty
        | (_, e) :: _ => .fallback e

/-- Result of frame resolution: `direct` is an early-return placeholder (the
Python code returns the bare DataFrame there, bypassing filters, column
selection and the column mapping); `frame` continues through the pipeline. -/
inductive FrameRes where
  | direct (d : DF)
  | frame (d : DF)
deriving DecidableEq, Repr

/-- Sheet resolution inside a nested source (lines 807-859): exact key, then
case-insensitive, then substring; an unmatched requested sheet returns a
placeholder, no requested sheet uses the first sheet. -/
def resolveSheet (e : SourceEntry) (sheet : Option String) : FrameRes :=
  match e with
  | .table d => .frame d
  | .sheets m =>
    match sheet with
    | some sn =>
      match alookup sn m with
      | some d => .frame d
      | none =>
        let sl := normName sn
        match findCI sl m with
        | some d => .frame d
        | none =>
          match findSubstrMatch sl m with
          | some d => .frame d
          | none => .direct (msgDF ("Sheet " ++ sn ++ " not found"))
    | none =>
      match m with
      | [] => .direct (msgDF "No data available")
      | (_, d) :: _ => .frame d

/-- Frame resolution for a mapping (lines 754-859): a missing/empty
`data_source` yields Python None; an empty store yields the diagnostic
placeholder; otherwise the matched or fallback source goes through sheet
resolution. -/
def resolveFrame (store : Store) (m : MappingSpec) : Option FrameRes :=
  match m.data_source with
  | none => none
  | some ds0 =>
    if ds0 == "" then none
    else
      match resolveSource store (pyStrip ds0) with
      | .empty => some (.direct (msgDF "No data available"))
      | .found e => some (resolveSheet e m.sheet)
      | .fallback e => some (resolveSheet e m.sheet)

/-! ## Column matching (ppt_builder.py lines 894-997) -/

/-- Strategy 1 (lines 914-917): exact, case-sensitive. -/
def matchExact (avail : List String) (u : String) : Option String :=
  if u ∈ avail then some u else none

/-- Strategy 2 (lines 919-927): case/whitespace-insensitive equality. -/
def matchCI (avail : List String) (u : String) : Option String :=
  avail.find? (fun a => normName a == normName u)

/-- One step of strategy 3 (lines 933-939): keep a candidate only when the
containment test holds and it is strictly shorter than the current best. -/
def substrStep (un : String) (acc : Option String) (a : String) : Option String :=
  let an := normName a
  if pyIn un an || pyIn an un then
    match acc with
    | none => some a
    | some b => if a.length < b.length then some a else acc
  else acc

/-- Strategy 3 (lines 929-939): substring containment in either direction,
preferring the shortest available column name (first among ties). -/
def matchSubstr (avail : List String) (u : String) : Option String :=
  avail.foldl (substrStep (normName u)) none

/-- Strategy 4 (lines 941-956): separator-normalized fuzzy equality. -/
def matchFuzzy (avail : List String) (u : String) : Option String :=
  avail.find? (fun a => fuzzyClean a == fuzzyClean u)

/-- Full per-column matcher (lines 909-956): strip the requested name, then
try the four strategies in order, first success wins. -/
def matchColumn (avail : List String) (userCol : String) : Option String :=
  let u := pyStrip userCol
  match matchExact avail u with
  | some a => some a
  | none =>
    match matchCI avail u with
    | some a => some a
    | none =>
      match matchSubstr avail u with
      | some a => some a
      | none => matchFuzzy avail u

/-- Accumulated matching state: matched columns in discovery order plus the
requested-name → actual-name mapping. -/
structure MatchState where
  matched : List String
  cmap : List (String × String)
deriving DecidableEq, Repr

/-- One iteration of the matching loop (lines 958-968): a requested column
whose match was already taken is dropped (with a warning) and gets no mapping
entry. -/
def matchStep (avail : List String) (st : MatchState) (u : String) : MatchState :=
  match matchColumn avail u with
  | some a =>
    if a ∈ st.matched then st
    else { matched := st.matched ++ [a], cmap := st.cmap ++ [(u, a)] }
  | none => st

/-- Matching loop over the requested columns (lines 909-968). -/
def buildMatches (avail : List String) (cols : List String) : MatchState :=
  cols.foldl (matchStep avail) { matched := [], cmap := [] }

/-- Append an element unless it is already present. -/
def dedupStep (acc : List String) (x : String) : List String :=
  if x ∈ acc then acc else acc ++ [x]

/-- One step of the reordering pass (lines 974-978). -/
def orderStep (cmap : List (String × String)) (acc : List String) (u : String) : List String :=
  match alookup u cmap with
  | some a => dedupStep acc a
  | none => acc

/-- Reordering pass (lines 971-978): walk the requested names in caller order,
keep each successfully mapped actual column once. -/
def orderedCols (cols : List String) (cmap : List (String × String)) : List String :=
  cols.foldl (orderStep cmap) []

/-- pandas `df[names]` column projection. -/
def selectCols (d : DF) (names : List String) : DF :=
  { cols := names
    rows := d.rows.map (fun r => names.map (fun c => rowGet r (d.cols.indexOf c))) }

/-- pandas `df.head n`. -/
def takeRows (n : Nat) (d : DF) : DF := { cols := d.cols, rows := d.rows.take n }

/-- First-occurrence deduplication (order-preserving). -/
def dedupFirst (l : List String) : List String :=
  l.foldl dedupStep []

/-! ## The resolver tail: filters, selection, row cap (lines 870-1029) -/

/-- Pipeline after frame resolution (ppt_builder.py lines 870-1029).  On the
matched-columns path (lines 971-990) the Python function returns immediately,
so `max_rows` (lines 1007-1010, applied only when truthy) only affects the
all-columns path; the identity column mapping of lines 1023-1027 likewise.  -/
def afterFrame (d0 : DF) (m : MappingSpec) (want : Bool) :
    DF × Option (List (String × String)) :=
  let rdf := applyFilters d0 m.filters
  let allPath : DF × Option (List (String × String)) :=
    let rdf2 :=
      match m.max_rows with
      | some n => if n != 0 then takeRows n rdf else rdf
      | none => rdf
    (rdf2, if want then some ((dedupFirst rdf2.cols).map (fun c => (c, c))) else none)
  match m.columns with
  | some cs =>
    if cs.isEmpty then allPath
    else
      let st := buildMatches rdf.cols cs
      if st.matched.isEmpty then allPath
      else
        let out := selectCols rdf (orderedCols cs st.cmap)
        (out, if want then some st.cmap else none)
  | none => allPath

/-- The table-data resolver `_get_table_data` (ppt_builder.py lines 754-1033).
Returns `none` exactly when Python returns None (falsy `data_source`); a
`direct` placeholder is returned bare (no column mapping even when requested),
matching the early returns of lines 802, 839, 854 and 859. -/
def getTableData (store : Store) (m : MappingSpec) (want : Bool) :
    Option (DF × Option (List (String × String))) :=
  match resolveFrame store m with
  | none => none
  | some (.direct d) => some (d, none)
  | some (.frame d) => some (afterFrame d m want)

/-! ## Row type classification (ppt_builder.py lines 143-182) -/

inductive RowType where
  | regular | subtotal | total
deriving DecidableEq, Repr

/-- Grand-total marker test (line 161): the uppercased first-column value
starts with AIL, TOTAL or GRAND. -/
def totalMarker (s : String) : Bool :=
  pyStartsWith s "AIL" || pyStartsWith s "TOTAL" || pyStartsWith s "GRAND"

/-- Loop of lines 174-178: some cell at positional index 2 or above (bounded
by both the row length and the column count) is non-null with non-empty
stripped text. -/
def hasLaterData (row : List Cell) (ncols : Nat) : Bool :=
  (List.range (min row.length ncols)).any
    (fun i => decide (2 ≤ i) && !(rowGet row i).isna && pyStrip (Cell.pyStr (rowGet row i)) != "")

/-- Row classifier of `add_table` (ppt_builder.py lines 145-182), for the row
at positional index `idx` of a table with `n` data rows and `ncols` columns. -/
def classifyRow (row : List Cell) (idx n ncols : Nat) : RowType :=
  let firstVal := if 0 < row.length then pyUpper (pyStrip (Cell.pyStr (rowGet row 0))) else ""
  let secondVal :=
    if 1 < row.length then
      if (rowGet row 1).isna then "" else pyStrip (Cell.pyStr (rowGet row 1))
    else ""
  if pyIn "TOTAL" firstVal then
    if totalMarker firstVal then .total
    else if idx = n - 1 then .total
    else .subtotal
  else if (if 1 < row.length then (rowGet row 1).isna else true) || secondVal == "" then
    if firstVal != "" && firstVal != "NAN" then
      if hasLaterData row ncols then .subtotal else .regular
    else .regular
  else .regular

/-- Classifier written exactly as claim C6 states it: total iff the uppercased
first column contains TOTAL and (starts with an aggregate marker or is the
last row); otherwise subtotal iff the second column is empty/missing while
some non-leading column carries a value; otherwise regular. -/
def classifyRowClaimed (row : List Cell) (idx n ncols : Nat) : RowType :=
  let firstVal := if 0 < row.length then pyUpper (pyStrip (Cell.pyStr (rowGet row 0))) else ""
  let secondEmpty :=
    (if 1 < row.length then (rowGet row 1).isna else true) ||
      (if 1 < row.length then
        (if (rowGet row 1).isna then "" else pyStrip (Cell.pyStr (rowGet row 1)))
      else "") == ""
  if pyIn "TOTAL" firstVal && (totalMarker firstVal || decide (idx = n - 1)) then .total
  else if secondEmpty && hasLaterData row ncols then .subtotal
  else .regular

/-- Classifier as claim C6 must be amended to hold of the code: a row whose
first column contains TOTAL but neither starts with an aggregate marker nor is
the last row is subtotal regardless of the second column; a TOTAL-free row is
subtotal iff its first column is non-empty and not NAN, its second column is
empty/missing, and some column at index 2 or above carries a value. -/
def classifyRowAmended (row : List Cell) (idx n ncols : Nat) : RowType :=
  let firstVal := if 0 < row.length then pyUpper (pyStrip (Cell.pyStr (rowGet row 0))) else ""
  let secondEmpty :=
    (if 1 < row.length then (rowGet row 1).isna else true) ||
      (if 1 < row.length then
        (if (rowGet row 1).isna then "" else pyStrip (Cell.pyStr (rowGet row 1)))
      else "") == ""
  if pyIn "TOTAL" firstVal && (totalMarker firstVal || decide (idx = n - 1)) then .total
  else if pyIn "TOTAL" firstVal then .subtotal
  else if secondEmpty && firstVal != "" && firstVal != "NAN" && hasLaterData row ncols then .subtotal
  else .regular

/-! ## Numeric cell formatting (ppt_builder.py lines 479-512) -/

/-- Round to the nearest integer, ties to even (the rounding of Python float
formatting, exact-arithmetic abstraction). -/
def roundHalfEven (x : ℚ) : ℤ :=
  let f := Int.floor x
  let r := x - f
  if r < 1 / 2 then f
  else if 1 / 2 < r then f + 1
  else if f % 2 = 0 then f else f + 1

/-- Python one-decimal fixed formatting of a non-negative rational. -/
def fmtOneDecNN (x : ℚ) : String :=
  let n := roundHalfEven (x * 10)
  toString (n / 10) ++ "." ++ toString (n % 10)

/-- Python one-decimal fixed formatting, with sign. -/
def fmtOneDec (x : ℚ) : String :=
  if x < 0 then "-" ++ fmtOneDecNN (-x) else fmtOneDecNN x

/-- Percentage formatting of a numeric cell (ppt_builder.py lines 484-495):
values below 1 are treated as fractions and scaled by 100, values above 100
are assumed pre-scaled and divided by 100, values in between are used as-is;
one decimal place and a percent sign in every branch. -/
def percentFormat (v : ℚ) : String :=
  if v < 1 then fmtOneDec (v * 100) ++ "%"
  else if v > 100 then fmtOneDec (v / 100) ++ "%"
  else fmtOneDec v ++ "%"

/-! ## Adaptive table geometry (ppt_builder.py lines 131-331) -/

/-- Base row/header heights by row-count bucket (lines 192-212), in inches. -/
def baseHeights (n : Nat) : ℚ × ℚ :=
  if n ≤ 5 then (50 / 100, 55 / 100)
  else if n ≤ 10 then (42 / 100, 47 / 100)
  else if n ≤ 15 then (35 / 100, 40 / 100)
  else if n ≤ 20 then (30 / 100, 35 / 100)
  else if n ≤ 25 then (26 / 100, 30 / 100)
  else if n ≤ 30 then (23 / 100, 27 / 100)
  else (20 / 100, 24 / 100)

/-- Base data/header font sizes by row-count bucket (lines 249-263). -/
def baseFonts (n : Nat) : ℤ × ℤ :=
  if n ≤ 10 then (9, 10)
  else if n ≤ 15 then (8, 9)
  else if n ≤ 20 then (7, 8)
  else if n ≤ 25 then (6, 7)
  else (6, 7)

structure TableGeom where
  rowH : ℚ
  headH : ℚ
  tableH : ℚ
  dataFont : ℤ
  headFont : ℤ
deriving DecidableEq, Repr

/-- Pipeline of lines 244-331 once the first shrink block is passed: minimum
height clamps, font-size buckets, stale-height font reduction (line 266 reads
the pre-clamp height), the final 0.92 rescale (lines 294-303) and the two
emergency slide-fit rescales (lines 308-329). -/
def afterShrink (n : Nat) (top maxH br0 bh0 calcStale : ℚ) : TableGeom :=
  let br := max (18 / 100) br0
  let bh := max (22 / 100) bh0
  let fonts0 := baseFonts n
  let fonts :=
    if calcStale > maxH * (85 / 100) then (max 6 (fonts0.1 - 1), max 7 (fonts0.2 - 1))
    else fonts0
  let fc0 := bh + n * br
  let step1 : ℚ × ℚ × ℚ :=
    if fc0 > maxH then
      let s := maxH * (92 / 100) / fc0
      (br * s, bh * s, bh * s + n * (br * s))
    else (br, bh, fc0)
  let step2 : ℚ × ℚ × ℚ :=
    if top + step1.2.2 > 15 / 2 - 2 / 5 then
      let avail := (15 / 2 - 2 / 5) - top
      if avail > 1 / 2 then
        let e := avail * (92 / 100) / step1.2.2
        let br3 := step1.1 * e
        let bh3 := step1.2.1 * e
        let fc3 := bh3 + n * br3
        if top + fc3 > 15 / 2 - 2 / 5 then
          let e2 := avail * (90 / 100) / fc3
          (br3 * e2, bh3 * e2, bh3 * e2 + n * (br3 * e2))
        else (br3, bh3, fc3)
      else step1
    else step1
  { rowH := step2.1, headH := step2.2.1, tableH := step2.2.2
    dataFont := fonts.1, headFont := fonts.2 }

/-- Height computation of `add_table` (ppt_builder.py lines 131-331) for a
table of `n` data rows placed at the given bounding box, in inches.  The
second shrink pass (lines 227-234) reads `data_font_size`, a local that is
only assigned later at lines 249-263: reaching that branch raises
UnboundLocalError in Python, modelled as the error result. -/
def computeTableGeom (n : Nat) (left top width height : ℚ) : Except String TableGeom :=
  let _availW := min width (10 - left - 1 / 2)
  let maxH := min height (15 / 2 - top - 1 / 2)
  let hb := baseHeights n
  let calc0 := hb.2 + n * hb.1
  if calc0 > maxH then
    let scale := maxH * (92 / 100) / calc0
    let br1 := hb.1 * scale
    let bh1 := hb.2 * scale
    let calc1 := bh1 + n * br1
    if calc1 > maxH then
      .error "UnboundLocalError: data_font_size referenced before assignment"
    else
      .ok (afterShrink n top maxH br1 bh1 calc1)
  else
    .ok (afterShrink n top maxH hb.1 hb.2 calc0)

/-! ## Cover-page token replacement (ppt_generator.py lines 204-214) -/

/-- Python `s.replace("AIL", aff)` on the character list: leftmost,
non-overlapping occurrences. -/
def replaceAILChars (aff : List Char) : List Char → List Char
  | 'A' :: 'I' :: 'L' :: rest => aff ++ replaceAILChars aff rest
  | c :: rest => c :: replaceAILChars aff rest
  | [] => []

/-- Occurrence test for the AIL token. -/
def containsAILChars : List Char → Bool
  | 'A' :: 'I' :: 'L' :: _ => true
  | _ :: rest => containsAILChars rest
  | [] => false

/-- Python `run.text.replace("AIL", affiliate)` on strings. -/
def pyReplaceAIL (aff s : String) : String := ⟨replaceAILChars aff.data s.data⟩

/-- The cover-page token replace (ppt_generator.py lines 204-214): every text
run of the first slide has AIL substituted by the affiliate via str.replace. -/
def replaceAffiliateInTitleSlide (runs : List String) (aff : String) : List String :=
  runs.map (pyReplaceAIL aff)

/-! ## Page orchestration (ppt_generator.py) -/

/-- Shapes placed on a slide, at the granularity the orchestrator claims
need: text boxes, table shapes, chart shapes. -/
inductive Shape where
  | textBox (s : String)
  | tableShape (d : DF)
  | chart
deriving DecidableEq, Repr

/-- Chart-versus-table section of `_generate_table_slide` (ppt_generator.py
lines 911-1096): with a chart enabled, success adds the chart and returns;
failure adds the Chart data unavailable notice and returns; either way the
table is skipped.  Without a chart, non-empty resolved table data is added as
a table shape (lines 1065-1096). -/
def tableChartSection (slide : List Shape) (chartEnabled : Bool)
    (chartResult : Except String Unit) (tableData : Option DF) : List Shape :=
  if chartEnabled then
    match chartResult with
    | .ok _ => slide ++ [Shape.chart]
    | .error _ => slide ++ [Shape.textBox "Chart data unavailable"]
  else
    match tableData with
    | some d => if 0 < d.rows.length then slide ++ [Shape.tableShape d] else slide
    | none => slide

/-- Chart-versus-content section of `_generate_content_slide`
(ppt_generator.py lines 621-775): with a chart enabled, success adds the
chart; failure returns with nothing added (lines 751-758 exit before the
content mappings and add no notice).  Without a chart the content shapes are
populated. -/
def contentChartSection (slide : List Shape) (chartEnabled : Bool)
    (chartResult : Except String Unit) (contentShapes : List Shape) : List Shape :=
  if chartEnabled then
    match chartResult with
    | .ok _ => slide ++ [Shape.chart]
    | .error _ => slide
  else slide ++ contentShapes

/-- Declarative slide unit as consumed by `_generate_slide`. -/
structure SlideCfg where
  number : Nat
  title : Option String
deriving DecidableEq, Repr

/-- Fallback content built in the except-branch of `_generate_slide`
(ppt_generator.py lines 368-400): the configured title (defaulting to
Slide n, skipped when empty) plus the neutral notice. -/
def fallbackSlide (cfg : SlideCfg) : List Shape :=
  let t := cfg.title.getD ("Slide " ++ toString cfg.number)
  (if t == "" then [] else [Shape.textBox t]) ++
    [Shape.textBox "Content unavailable - please check data configuration"]

/-- One slide generation attempt with its page-boundary exception handler
(ppt_generator.py lines 320-400): any failure of the populate step is caught
and replaced by the fallback content. -/
def genSlide (populate : SlideCfg → Except String (List Shape)) (cfg : SlideCfg) : List Shape :=
  match populate cfg with
  | .ok s => s
  | .error _ => fallbackSlide cfg

/-- The deck generation loop (ppt_generator.py lines 130-142 and 181-193):
slides are generated strictly in configuration order, each inside the
page-boundary handler, and the loop continues past failures. -/
def generateSlides (populate : SlideCfg → Except String (List Shape))
    (cfgs : List SlideCfg) : List (List Shape) :=
  cfgs.map (genSlide populate)

/-! ## General lemmas about the column matcher -/

theorem matchExact_mem {avail : List String} {u a : String}
    (h : matchExact avail u = some a) : a ∈ avail := by
  unfold matchExact at h
  split at h
  · cases h; assumption
  · cases h

theorem matchCI_mem {avail : List String} {u a : String}
    (h : matchCI avail u = some a) : a ∈ avail :=
  List.mem_of_find?_eq_some h

theorem substrStep_cases (un : String) (acc : Option String) (a : String) :
    substrStep un acc a = acc ∨ substrStep un acc a = some a := by
  unfold substrStep
  cases acc <;> simp only [] <;> split_ifs <;> simp

theorem foldl_substrStep_mem (un : String) :
    ∀ (l : List String) (acc : Option String) (a : String),
      l.foldl (substrStep un) acc = some a → acc = some a ∨ a ∈ l := by
  intro l
  induction l with
  | nil => intro acc a h; exact Or.inl h
  | cons x xs ih =>
    intro acc a h
    rcases ih (substrStep un acc x) a h with h2 | h2
    · rcases substrStep_cases un acc x with hc | hc
      · rw [hc] at h2; exact Or.inl h2
      · rw [hc] at h2
        cases h2
        exact Or.inr (List.mem_cons_self x xs)
    · exact Or.inr (List.mem_cons_of_mem x h2)

theorem matchSubstr_mem {avail : List String} {u a : String}
    (h : matchSubstr avail u = some a) : a ∈ avail := by
  unfold matchSubstr at h
  rcases foldl_substrStep_mem (normName u) avail none a h with h2 | h2
  · cases h2
  · exact h2

theorem matchFuzzy_mem {avail : List String} {u a : String}
    (h : matchFuzzy avail u = some a) : a ∈ avail :=
  List.mem_of_find?_eq_some h

theorem matchColumn_mem {avail : List String} {u a : String}
    (h : matchColumn avail u = some a) : a ∈ avail := by
  simp only [matchColumn] at h
  rcases h1 : matchExact avail (pyStrip u) with _ | b <;> simp only [h1] at h
  · rcases h2 : matchCI avail (pyStrip u) with _ | b <;> simp only [h2] at h
    · rcases h3 : matchSubstr avail (pyStrip u) with _ | b <;> simp only [h3] at h
      · exact matchFuzzy_mem h
      · exact (Option.some.inj h) ▸ matchSubstr_mem h3
    · exact (Option.some.inj h) ▸ matchCI_mem h2
  · exact (Option.some.inj h) ▸ matchExact_mem h1

theorem foldl_matchStep_cmap_mem (avail : List String) :
    ∀ (cols : List String) (st : MatchState) (p : String × String),
      p ∈ (cols.foldl (matchStep avail) st).cmap → p ∈ st.cmap ∨ p.2 ∈ avail := by
  intro cols
  induction cols with
  | nil => intro st p h; exact Or.inl h
  | cons u us ih =>
    intro st p h
    rcases ih (matchStep avail st u) p h with h2 | h2
    · unfold matchStep at h2
      rcases hm : matchColumn avail u with _ | a <;> simp only [hm] at h2
      · exact Or.inl h2
      · split_ifs at h2
        · exact Or.inl h2
        · simp only [List.mem_append, List.mem_singleton] at h2
          rcases h2 with h2 | h2
          · exact Or.inl h2
          · subst h2; exact Or.inr (matchColumn_mem hm)
    · exact Or.inr h2

theorem buildMatches_cmap_mem {avail cols : List String} {p : String × String}
    (h : p ∈ (buildMatches avail cols).cmap) : p.2 ∈ avail := by
  unfold buildMatches at h
  rcases foldl_matchStep_cmap_mem avail cols _ p h with h2 | h2
  · simp at h2
  · exact h2

theorem alookup_mem {α : Type} {k : String} {v : α} :
    ∀ {l : List (String × α)}, alookup k l = some v → (k, v) ∈ l := by
  intro l
  induction l with
  | nil => intro h; cases h
  | cons p rest ih =>
    intro h
    rcases p with ⟨k2, v2⟩
    simp only [alookup] at h
    split_ifs at h with hk
    · cases h
      have hk2 : k2 = k := beq_iff_eq.mp hk
      subst hk2
      exact List.mem_cons_self _ _
    · exact List.mem_cons_of_mem _ (ih h)

theorem foldl_dedupStep_mem :
    ∀ (l acc : List String) (x : String), x ∈ l.foldl dedupStep acc → x ∈ acc ∨ x ∈ l := by
  intro l
  induction l with
  | nil => intro acc x h; exact Or.inl h
  | cons y ys ih =>
    intro acc x h
    rcases ih (dedupStep acc y) x h with h2 | h2
    · unfold dedupStep at h2
      split_ifs at h2
      · exact Or.inl h2
      · simp only [List.mem_append, List.mem_singleton] at h2
        rcases h2 with h2 | h2
        · exact Or.inl h2
        · subst h2; exact Or.inr (List.mem_cons_self _ _)
    · exact Or.inr (List.mem_cons_of_mem _ h2)

theorem foldl_orderStep_eq (cmap : List (String × String)) :
    ∀ (cols : List String) (acc : List String),
      cols.foldl (orderStep cmap) acc =
        (cols.filterMap (fun u => alookup u cmap)).foldl dedupStep acc := by
  intro cols
  induction cols with
  | nil => intro acc; rfl
  | cons u us ih =>
    intro acc
    rw [List.foldl_cons, List.filterMap_cons]
    rcases hm : alookup u cmap with _ | a
    · have hstep : orderStep cmap acc u = acc := by unfold orderStep; rw [hm]
      rw [hstep, ih]
    · have hstep : orderStep cmap acc u = dedupStep acc a := by unfold orderStep; rw [hm]
      rw [hstep, List.foldl_cons, ih]

theorem orderedCols_eq_dedupFirst (cols : List String) (cmap : List (String × String)) :
    orderedCols cols cmap = dedupFirst (cols.filterMap (fun u => alookup u cmap)) := by
  unfold orderedCols dedupFirst
  exact foldl_orderStep_eq cmap cols []

/-! ## General lemmas about source resolution -/

theorem containsAIL_cons (c : Char) (rest : List Char)
    (hno : ∀ t, c = 'A' → rest = 'I' :: 'L' :: t → False) :
    containsAILChars (c :: rest) = containsAILChars rest := by
  rw [containsAILChars.eq_def]
  split
  · rename_i t heq
    cases heq
    exact absurd rfl (fun h => hno t h rfl)
  · rename_i c2 r2 heq
    cases heq
    rfl
  · rename_i heq
    cases heq

theorem replaceAIL_cons (aff : List Char) (c : Char) (rest : List Char)
    (hno : ∀ t, c = 'A' → rest = 'I' :: 'L' :: t → False) :
    replaceAILChars aff (c :: rest) = c :: replaceAILChars aff rest := by
  rw [replaceAILChars.eq_def]
  split
  · rename_i t heq
    cases heq
    exact absurd rfl (fun h => hno t h rfl)
  · rename_i c2 r2 heq
    cases heq
    rfl
  · rename_i heq
    cases heq

theorem replaceAIL_of_not_contains (aff : List Char) :
    ∀ l : List Char, containsAILChars l = false → replaceAILChars aff l = l := by
  intro l
  induction l using containsAILChars.induct with
  | case1 rest => intro h; simp [containsAILChars] at h
  | case2 c rest hno ih =>
    intro h
    rw [containsAIL_cons c rest hno] at h
    rw [replaceAIL_cons aff c rest hno, ih h]
  | case3 => intro _; rfl

/-! ## General lemma about the table geometry: the shrink computation
succeeds whenever the available height is positive (the second shrink pass,
and with it the unbound-local error, is reachable only for degenerate
bounding boxes whose available height is negative) -/

theorem computeTableGeom_ok_of_pos (n : Nat) (left top width height : ℚ)
    (hpos : 0 < min height (15 / 2 - top - 1 / 2)) :
    ∃ g, computeTableGeom n left top width height = .ok g := by
  simp only [computeTableGeom]
  have hb1 : 0 < (baseHeights n).1 := by
    unfold baseHeights; split_ifs <;> norm_num
  have hb2 : 0 < (baseHeights n).2 := by
    unfold baseHeights; split_ifs <;> norm_num
  by_cases hc : (baseHeights n).2 + n * (baseHeights n).1 > min height (15 / 2 - top - 1 / 2)
  · rw [if_pos hc]
    have hcalc0 : 0 < (baseHeights n).2 + (n : ℚ) * (baseHeights n).1 := by positivity
    have heq : (baseHeights n).2 *
          (min height (15 / 2 - top - 1 / 2) * (92 / 100) /
            ((baseHeights n).2 + (n : ℚ) * (baseHeights n).1)) +
        (n : ℚ) * ((baseHeights n).1 *
          (min height (15 / 2 - top - 1 / 2) * (92 / 100) /
            ((baseHeights n).2 + (n : ℚ) * (baseHeights n).1))) =
        min height (15 / 2 - top - 1 / 2) * (92 / 100) := by
      field_simp
      ring
    rw [heq]
    rw [if_neg (by linarith)]
    exact ⟨_, rfl⟩
  · rw [if_neg hc]
    exact ⟨_, rfl⟩

/-! ## Claim theorems -/

/-- C1: for every resolver call whose mapping carries a non-empty requested
columns list with at least one successful match, the resolved table's columns
are exactly the matched columns, deduplicated, in the caller's requested order
restricted to the matched names (so the order is dictated by the request, not
by the source table), and every output column is an available source column. -/
theorem c1_resolver_columns_follow_requested_order
    (store : Store) (m : MappingSpec) (want : Bool) (d0 : DF) (cs : List String)
    (hframe : resolveFrame store m = some (.frame d0))
    (hcols : m.columns = some cs) (hne : cs ≠ [])
    (hmatch : (buildMatches (applyFilters d0 m.filters).cols cs).matched ≠ []) :
    ∃ df cm, getTableData store m want = some (df, cm) ∧
      df.cols = dedupFirst (cs.filterMap
        (fun u => alookup u (buildMatches (applyFilters d0 m.filters).cols cs).cmap)) ∧
      ∀ c ∈ df.cols, c ∈ (applyFilters d0 m.filters).cols := by
  have hgtd : getTableData store m want = some (afterFrame d0 m want) := by
    unfold getTableData
    rw [hframe]
  have hafter : afterFrame d0 m want =
      (selectCols (applyFilters d0 m.filters)
        (orderedCols cs (buildMatches (applyFilters d0 m.filters).cols cs).cmap),
       if want then some (buildMatches (applyFilters d0 m.filters).cols cs).cmap else none) := by
    unfold afterFrame
    rw [hcols]
    simp only [List.isEmpty_eq_false.mpr hne, Bool.false_eq_true, if_false,
      List.isEmpty_eq_false.mpr hmatch]
  refine ⟨_, _, by rw [hgtd, hafter], ?_, ?_⟩
  · show (selectCols _ _).cols = _
    unfold selectCols
    exact orderedCols_eq_dedupFirst cs _
  · intro c hc
    unfold selectCols at hc
    simp only at hc
    rw [orderedCols_eq_dedupFirst] at hc
    rcases foldl_dedupStep_mem _ [] c hc with h2 | h2
    · cases h2
    · rcases List.mem_filterMap.mp h2 with ⟨u, _, hl⟩
      exact buildMatches_cmap_mem (alookup_mem hl)

/-- Witness for C1 at a concrete store: requesting columns C then A from a
table whose source order is A, B, C yields exactly the columns C, A. -/
theorem c1_resolver_columns_follow_requested_order_witness :
    resolveFrame
        [("S", SourceEntry.table
          { cols := ["A", "B", "C"], rows := [[Cell.str "a", Cell.str "b", Cell.str "c"]] })]
        { data_source := some "S", sheet := none, columns := some ["C", "A"],
          filters := [], max_rows := none } =
      some (FrameRes.frame
        { cols := ["A", "B", "C"], rows := [[Cell.str "a", Cell.str "b", Cell.str "c"]] }) ∧
    (∃ df cm, getTableData
        [("S", SourceEntry.table
          { cols := ["A", "B", "C"], rows := [[Cell.str "a", Cell.str "b", Cell.str "c"]] })]
        { data_source := some "S", sheet := none, columns := some ["C", "A"],
          filters := [], max_rows := none } false = some (df, cm) ∧
      df.cols = dedupFirst (["C", "A"].filterMap
        (fun u => alookup u (buildMatches
          (applyFilters { cols := ["A", "B", "C"], rows := [[Cell.str "a", Cell.str "b", Cell.str "c"]] } []).cols
          ["C", "A"]).cmap)) ∧
      ∀ c ∈ df.cols, c ∈ (applyFilters
        { cols := ["A", "B", "C"], rows := [[Cell.str "a", Cell.str "b", Cell.str "c"]] } []).cols) :=
  ⟨by decide,
    c1_resolver_columns_follow_requested_order _ _ false _ ["C", "A"]
      (by decide) rfl (by decide) (by decide)⟩

/-- C3 counterexample: on a content slide with the chart enabled and failing,
the orchestrator exits before the content mappings and adds no message shape
at all, so no content-unavailable style text is rendered on that path
(ppt_generator.py lines 751-758). -/
theorem c3_content_slide_failure_counterexample :
    contentChartSection [] true (Except.error "chart failed") [Shape.textBox "content"] = [] := rfl

/-- C3 amended: a chart-enabled page never renders the table or the content
mappings, whether the chart succeeds or fails, and the function returns
normally in every case; on failure the table-slide path renders the
Chart data unavailable notice, while the content-slide path renders nothing
in its place. -/
theorem c3_chart_supersedes_amended :
    (∀ (slide : List Shape) (e : String) (td : Option DF),
      tableChartSection slide true (Except.error e) td =
        slide ++ [Shape.textBox "Chart data unavailable"]) ∧
    (∀ (slide : List Shape) (td : Option DF),
      tableChartSection slide true (Except.ok ()) td = slide ++ [Shape.chart]) ∧
    (∀ (slide : List Shape) (e : String) (cshapes : List Shape),
      contentChartSection slide true (Except.error e) cshapes = slide) ∧
    (∀ (slide : List Shape) (cshapes : List Shape),
      contentChartSection slide true (Except.ok ()) cshapes = slide ++ [Shape.chart]) :=
  ⟨fun _ _ _ => rfl, fun _ _ => rfl, fun _ _ _ => rfl, fun _ _ => rfl⟩

/-- C4 counterexample: with max_rows set to 1 and a matched requested column,
the resolver returns both data rows: the matched-columns path returns before
the row cap is applied (ppt_builder.py line 990 precedes lines 1007-1010). -/
theorem c4_max_rows_counterexample :
    getTableData
        [("S", SourceEntry.table
          { cols := ["A", "B"],
            rows := [[Cell.str "a1", Cell.str "b1"], [Cell.str "a2", Cell.str "b2"]] })]
        { data_source := some "S", sheet := none, columns := some ["A"],
          filters := [], max_rows := some 1 } false =
      some ({ cols := ["A"], rows := [[Cell.str "a1"], [Cell.str "a2"]] }, none) ∧
    ({ cols := ["A"], rows := [[Cell.str "a1"], [Cell.str "a2"]] } : DF).rows.length = 2 :=
  ⟨by decide, by decide⟩

/-- C4 amended: the max_rows cap truncates to the first N rows only on the
all-columns path, reached when the mapping requests no columns, an empty
columns list, or a columns list with zero successful matches: there the
returned table keeps the filtered frame's columns and its rows are exactly
the first-N prefix of the filtered rows (hence at most N rows); on the
matched-columns path the resolver returns before the cap is applied. -/
theorem c4_max_rows_amended
    (store : Store) (m : MappingSpec) (want : Bool) (d0 : DF) (n : Nat)
    (hframe : resolveFrame store m = some (.frame d0))
    (hmax : m.max_rows = some n) (hn : n ≠ 0)
    (hcols : m.columns = none ∨ m.columns = some [] ∨
      (∃ cs, m.columns = some cs ∧
        (buildMatches (applyFilters d0 m.filters).cols cs).matched = [])) :
    ∃ df cm, getTableData store m want = some (df, cm) ∧
      df.cols = (applyFilters d0 m.filters).cols ∧
      df.rows = (applyFilters d0 m.filters).rows.take n ∧
      df.rows.length ≤ n := by
  have hgtd : getTableData store m want = some (afterFrame d0 m want) := by
    unfold getTableData
    rw [hframe]
  have hbne : (n != 0) = true := by simpa using hn
  have hall : (afterFrame d0 m want).1 = takeRows n (applyFilters d0 m.filters) := by
    unfold afterFrame
    rcases hcols with h | h | ⟨cs, h, hm⟩
    · rw [h, hmax]
      simp only [hbne, if_true]
    · rw [h, hmax]
      simp only [hbne, List.isEmpty_nil, if_true]
    · rw [h, hmax]
      simp only [hbne, if_true]
      cases hcs : cs.isEmpty
      · simp only [hcs, Bool.false_eq_true, if_false, hm, List.isEmpty_nil, if_true]
      · simp only [hcs, if_true]
  refine ⟨(afterFrame d0 m want).1, (afterFrame d0 m want).2, by rw [hgtd], ?_, ?_, ?_⟩
  · rw [hall]
    rfl
  · rw [hall]
    rfl
  · rw [hall]
    unfold takeRows
    simp only [List.length_take]
    exact inf_le_left

/-- Witness for C4 amended: with no columns requested and max_rows 1, a
two-row table is truncated to at most one row. -/
theorem c4_max_rows_amended_witness :
    resolveFrame
        [("S", SourceEntry.table
          { cols := ["A", "B"],
            rows := [[Cell.str "a1", Cell.str "b1"], [Cell.str "a2", Cell.str "b2"]] })]
        { data_source := some "S", sheet := none, columns := none,
          filters := [], max_rows := some 1 } =
      some (FrameRes.frame
        { cols := ["A", "B"],
          rows := [[Cell.str "a1", Cell.str "b1"], [Cell.str "a2", Cell.str "b2"]] }) ∧
    ∃ df cm, getTableData
        [("S", SourceEntry.table
          { cols := ["A", "B"],
            rows := [[Cell.str "a1", Cell.str "b1"], [Cell.str "a2", Cell.str "b2"]] })]
        { data_source := some "S", sheet := none, columns := none,
          filters := [], max_rows := some 1 } false = some (df, cm) ∧
      df.cols = (applyFilters
        { cols := ["A", "B"],
          rows := [[Cell.str "a1", Cell.str "b1"], [Cell.str "a2", Cell.str "b2"]] } []).cols ∧
      df.rows = (applyFilters
        { cols := ["A", "B"],
          rows := [[Cell.str "a1", Cell.str "b1"], [Cell.str "a2", Cell.str "b2"]] } []).rows.take 1 ∧
      df.rows.length ≤ 1 :=
  ⟨by decide,
    c4_max_rows_amended
      [("S", SourceEntry.table
        { cols := ["A", "B"],
          rows := [[Cell.str "a1", Cell.str "b1"], [Cell.str "a2", Cell.str "b2"]] })]
      { data_source := some "S", sheet := none, columns := none,
        filters := [], max_rows := some 1 } false
      { cols := ["A", "B"],
        rows := [[Cell.str "a1", Cell.str "b1"], [Cell.str "a2", Cell.str "b2"]] } 1
      (by decide) rfl (by decide) (Or.inl rfl)⟩

/-- C5: evaluating the add_table height computation at a bounding box whose
available height is negative (top at the bottom slide edge) reaches the
second shrink pass, which reads data_font_size before its assignment at
lines 249-263 — Python raises UnboundLocalError instead of accepting the
overflow, contradicting the never-raises design. -/
theorem c5_unbound_local_at_degenerate_box :
    computeTableGeom 1 (1 / 2) (15 / 2) 9 1 =
      Except.error "UnboundLocalError: data_font_size referenced before assignment" := by
  norm_num [computeTableGeom, baseHeights, min_def]

/-- C6 counterexample: a non-final row whose first column contains TOTAL
(without an aggregate-marker lead) and whose second column is non-empty is
classified subtotal by the code, while the claimed classification rules make
it regular. -/
theorem c6_classification_counterexample :
    classifyRow [Cell.str "Region Total", Cell.str "X", Cell.str "5"] 0 2 3 = RowType.subtotal ∧
    classifyRowClaimed [Cell.str "Region Total", Cell.str "X", Cell.str "5"] 0 2 3 =
      RowType.regular ∧
    classifyRow [Cell.str "Region Total", Cell.str "X", Cell.str "5"] 0 2 3 ≠
      classifyRowClaimed [Cell.str "Region Total", Cell.str "X", Cell.str "5"] 0 2 3 :=
  ⟨by decide, by decide, by decide⟩

/-- C6 amended: the code's row classifier agrees everywhere with the amended
rules: total iff the uppercased first column contains TOTAL and (starts with
an aggregate marker or is the last row); otherwise any TOTAL-containing row is
subtotal regardless of the second column; otherwise subtotal iff the first
column is non-empty and not NAN, the second column is empty or missing, and
some column at index two or above carries a value; else regular. -/
theorem c6_classification_amended (row : List Cell) (idx n ncols : Nat) :
    classifyRow row idx n ncols = classifyRowAmended row idx n ncols := by
  unfold classifyRow classifyRowAmended
  split_ifs <;> simp_all <;> split_ifs <;> simp_all

/-- C7: percentage formatting follows the three-branch heuristic (scale up
fractions below 1, scale down values above 100, pass through values in
between, one decimal and a percent sign in every branch), and the three
canonical inputs all render as 45.3 percent. -/
theorem c7_percentage_format :
    (∀ v : ℚ, v < 1 → percentFormat v = fmtOneDec (v * 100) ++ "%") ∧
    (∀ v : ℚ, 100 < v → percentFormat v = fmtOneDec (v / 100) ++ "%") ∧
    (∀ v : ℚ, 1 ≤ v → v ≤ 100 → percentFormat v = fmtOneDec v ++ "%") ∧
    percentFormat (453 / 1000) = "45.3%" ∧
    percentFormat (453 / 10) = "45.3%" ∧
    percentFormat 4530 = "45.3%" := by
  refine ⟨?_, ?_, ?_, ?_, ?_, ?_⟩
  · intro v h
    unfold percentFormat
    rw [if_pos h]
  · intro v h
    unfold percentFormat
    rw [if_neg (by linarith), if_pos h]
  · intro v h1 h2
    unfold percentFormat
    rw [if_neg (by linarith), if_neg (by linarith)]
  · norm_num [percentFormat, fmtOneDec, fmtOneDecNN, roundHalfEven]
    decide
  · norm_num [percentFormat, fmtOneDec, fmtOneDecNN, roundHalfEven]
    decide
  · norm_num [percentFormat, fmtOneDec, fmtOneDecNN, roundHalfEven]
    decide

/-- Witness for C7 at the fraction branch input. -/
theorem c7_percentage_format_witness :
    ((453 : ℚ) / 1000 < 1) ∧
    percentFormat ((453 : ℚ) / 1000) = fmtOneDec ((453 : ℚ) / 1000 * 100) ++ "%" :=
  ⟨by norm_num, c7_percentage_format.1 (453 / 1000) (by norm_num)⟩

/-- C8 counterexample: the transposed-letters request Regoin matches Region
under none of the four strategies; the resolver instead falls back to all
columns with an identity mapping, which does not contain the claimed
Regoin-to-Region entry. -/
theorem c8_typo_match_counterexample :
    matchColumn ["Region", "Total"] "Regoin" = none ∧
    getTableData
        [("Sales", SourceEntry.table
          { cols := ["Region", "Total"], rows := [[Cell.str "East", Cell.str "100"]] })]
        { data_source := some "Sales", sheet := none, columns := some ["Regoin"],
          filters := [], max_rows := none } true =
      some ({ cols := ["Region", "Total"], rows := [[Cell.str "East", Cell.str "100"]] },
        some [("Region", "Region"), ("Total", "Total")]) ∧
    ("Regoin", "Region") ∉ [("Region", "Region"), ("Total", "Total")] :=
  ⟨by decide, by decide, by decide⟩

/-- C8 amended: resolving columns Regoin against an available Region fails the
substring and fuzzy strategies (they do not repair transpositions), the match
loop produces no matched column, and the resolver falls back to returning all
source columns with the identity column mapping, in which Regoin is absent. -/
theorem c8_typo_match_amended :
    matchSubstr ["Region", "Total"] "Regoin" = none ∧
    matchFuzzy ["Region", "Total"] "Regoin" = none ∧
    (buildMatches ["Region", "Total"] ["Regoin"]).matched = [] ∧
    getTableData
        [("Sales", SourceEntry.table
          { cols := ["Region", "Total"], rows := [[Cell.str "East", Cell.str "100"]] })]
        { data_source := some "Sales", sheet := none, columns := some ["Regoin"],
          filters := [], max_rows := none } true =
      some ({ cols := ["Region", "Total"], rows := [[Cell.str "East", Cell.str "100"]] },
        some [("Region", "Region"), ("Total", "Total")]) ∧
    alookup "Regoin" [("Region", "Region"), ("Total", "Total")] = none :=
  ⟨by decide, by decide, by decide, by decide, by decide⟩

/-- C9: a failing slide is caught at the slide boundary: the deck keeps one
generated slide per configured slide, the failing position holds the fallback
slide, the surrounding slides are generated unchanged in order, and the
fallback contains the content-unavailable notice. -/
theorem c9_slide_failure_isolated
    (populate : SlideCfg → Except String (List Shape))
    (pre post : List SlideCfg) (cfg : SlideCfg) (e : String)
    (hfail : populate cfg = .error e) :
    (generateSlides populate (pre ++ cfg :: post)).length = (pre ++ cfg :: post).length ∧
    generateSlides populate (pre ++ cfg :: post) =
      generateSlides populate pre ++ fallbackSlide cfg :: generateSlides populate post ∧
    Shape.textBox "Content unavailable - please check data configuration" ∈ fallbackSlide cfg := by
  refine ⟨by simp [generateSlides], ?_, ?_⟩
  · simp [generateSlides, genSlide, hfail]
  · unfold fallbackSlide
    simp

/-- Witness for C9: a one-slide deck whose populate step always fails still
produces one slide, the fallback. -/
theorem c9_slide_failure_isolated_witness :
    (generateSlides (fun _ => Except.error "boom")
        ([] ++ ({ number := 1, title := some "Overview" } : SlideCfg) :: [])).length =
      (([] : List SlideCfg) ++ ({ number := 1, title := some "Overview" } : SlideCfg) :: []).length ∧
    generateSlides (fun _ => Except.error "boom")
        ([] ++ ({ number := 1, title := some "Overview" } : SlideCfg) :: []) =
      generateSlides (fun _ => Except.error "boom") [] ++
        fallbackSlide { number := 1, title := some "Overview" } ::
          generateSlides (fun _ => Except.error "boom") [] ∧
    Shape.textBox "Content unavailable - please check data configuration" ∈
      fallbackSlide { number := 1, title := some "Overview" } :=
  c9_slide_failure_isolated (fun _ => Except.error "boom") [] []
    { number := 1, title := some "Overview" } "boom" rfl

/-- C10 counterexample: the cover-page replace substitutes inside a run that
merely contains the token (AIL Results becomes APC Results), so a run not
equal to the token is still changed, contrary to the claim. -/
theorem c10_token_replace_counterexample :
    replaceAffiliateInTitleSlide ["AIL Results"] "APC" = ["APC Results"] ∧
    ("AIL Results" : String) ≠ "AIL" ∧
    ("APC Results" : String) ≠ "AIL Results" :=
  ⟨by decide, by decide, by decide⟩

/-- C10 amended: the cover-page step replaces every occurrence of the AIL
token as a substring in each run of the first slide: a run equal to the token
becomes exactly the identifier, a run without any occurrence is unchanged,
and the step acts pointwise on the runs. -/
theorem c10_token_replace_amended :
    (∀ aff : String, pyReplaceAIL aff "AIL" = aff) ∧
    (∀ (aff s : String), containsAILChars s.data = false → pyReplaceAIL aff s = s) ∧
    (∀ (runs : List String) (aff : String) (i : Nat),
      (replaceAffiliateInTitleSlide runs aff).getD i "" = pyReplaceAIL aff (runs.getD i "")) := by
  refine ⟨?_, ?_, ?_⟩
  · intro aff
    obtain ⟨l⟩ := aff
    show String.mk (replaceAILChars l ('A' :: 'I' :: 'L' :: [])) = String.mk l
    rw [replaceAILChars]
    rw [replaceAILChars]
    simp
  · intro aff s h
    obtain ⟨l⟩ := s
    show String.mk (replaceAILChars aff.data l) = String.mk l
    rw [replaceAIL_of_not_contains aff.data l h]
  · intro runs aff i
    unfold replaceAffiliateInTitleSlide
    rw [List.getD_eq_getElem?_getD, List.getElem?_map, List.getD_eq_getElem?_getD]
    cases h : runs[i]? with
    | none =>
      simp only [Option.map_none, Option.getD_none]
      rfl
    | some r => simp

/-- Witness for C10 amended: a run without the token is left unchanged. -/
theorem c10_token_replace_amended_witness :
    containsAILChars ("Report" : String).data = false ∧
    pyReplaceAIL "APC" "Report" = "Report" :=
  ⟨by decide, c10_token_replace_amended.2.1 "APC" "Report" (by decide)⟩
